import Mathlib

/- Verification development for the auric-ui client (TypeScript / React).

   The client-side logic under scrutiny lives in
     - src/app/dashboard/page.tsx  (label generation, top-driver digest,
       14-day action metrics, key signals / watch list, chart path building,
       ATX response-shape validation),
     - src/app/journal/page.tsx    (per-day ATX rendering),
     - src/lib/api.ts              (apiFetch / ApiError),
     - src/lib/auth.ts             (token storage),
     - src/components/Sparkline.tsx (sparkline path building).

   JavaScript numbers are modelled by `JsNum`, distinguishing finite values
   (exact rationals) from NaN and the two infinities.  IEEE-754 rounding of
   arithmetic is abstracted to exact rational arithmetic, and JavaScript's
   shortest-round-trip decimal printing is approximated by an exact decimal
   expansion (the two agree on integers, the only values the verified
   claims ever print).  JavaScript values at untyped boundaries are
   modelled by `JsValue`. -/

inductive JsNum where
  | fin (q : ℚ)
  | nan
  | inf
  | ninf
deriving DecidableEq

def JsNum.isFinite : JsNum → Bool
  | .fin _ => true
  | _ => false

/- Value of a finite JsNum (0 on the non-finite constructors; only applied
   under an `isFinite` hypothesis). -/
def JsNum.finVal : JsNum → ℚ
  | .fin q => q
  | _ => 0

def jsNeg : JsNum → JsNum
  | .fin q => .fin (-q)
  | .nan => .nan
  | .inf => .ninf
  | .ninf => .inf

def jsAdd : JsNum → JsNum → JsNum
  | .nan, _ => .nan
  | _, .nan => .nan
  | .fin a, .fin b => .fin (a + b)
  | .inf, .ninf => .nan
  | .ninf, .inf => .nan
  | .inf, _ => .inf
  | _, .inf => .inf
  | .ninf, _ => .ninf
  | _, .ninf => .ninf

def jsSub (a b : JsNum) : JsNum := jsAdd a (jsNeg b)

def jsMul : JsNum → JsNum → JsNum
  | .nan, _ => .nan
  | _, .nan => .nan
  | .fin a, .fin b => .fin (a * b)
  | .inf, .inf => .inf
  | .inf, .ninf => .ninf
  | .ninf, .inf => .ninf
  | .ninf, .ninf => .inf
  | .inf, .fin b => if b = 0 then .nan else if 0 < b then .inf else .ninf
  | .fin a, .inf => if a = 0 then .nan else if 0 < a then .inf else .ninf
  | .ninf, .fin b => if b = 0 then .nan else if 0 < b then .ninf else .inf
  | .fin a, .ninf => if a = 0 then .nan else if 0 < a then .ninf else .inf

/- JavaScript division; signed zeroes are not modelled (0 behaves as +0). -/
def jsDiv : JsNum → JsNum → JsNum
  | .nan, _ => .nan
  | _, .nan => .nan
  | .fin a, .fin b =>
      if b = 0 then (if a = 0 then .nan else if 0 < a then .inf else .ninf)
      else .fin (a / b)
  | .fin _, .inf => .fin 0
  | .fin _, .ninf => .fin 0
  | .inf, .fin b => if 0 ≤ b then .inf else .ninf
  | .ninf, .fin b => if 0 ≤ b then .ninf else .inf
  | .inf, _ => .nan
  | .ninf, _ => .nan

def jsAbs : JsNum → JsNum
  | .fin q => .fin |q|
  | .nan => .nan
  | .inf => .inf
  | .ninf => .inf

/- `Math.round`: round half towards positive infinity. -/
def jsRound : JsNum → JsNum
  | .fin q => .fin (⌊q + 1/2⌋ : ℤ)
  | .nan => .nan
  | .inf => .inf
  | .ninf => .ninf

/- `<` on JS numbers: every comparison with NaN is false. -/
def jsLt : JsNum → JsNum → Bool
  | .nan, _ => false
  | _, .nan => false
  | .fin a, .fin b => decide (a < b)
  | .fin _, .inf => true
  | .fin _, .ninf => false
  | .inf, .inf => false
  | .inf, _ => false
  | .ninf, .ninf => false
  | .ninf, _ => true

def jsLe : JsNum → JsNum → Bool
  | .nan, _ => false
  | _, .nan => false
  | .fin a, .fin b => decide (a ≤ b)
  | .fin _, .inf => true
  | .fin _, .ninf => false
  | .inf, .inf => true
  | .inf, _ => false
  | .ninf, _ => true

def jsGt (a b : JsNum) : Bool := jsLt b a

def jsGe (a b : JsNum) : Bool := jsLe b a

def jsMin (a b : JsNum) : JsNum :=
  match a, b with
  | .nan, _ => .nan
  | _, .nan => .nan
  | _, _ => if jsLe a b then a else b

def jsMax (a b : JsNum) : JsNum :=
  match a, b with
  | .nan, _ => .nan
  | _, .nan => .nan
  | _, _ => if jsLe a b then b else a

/- Truthiness of a JS number: 0 and NaN are falsy. -/
def jsTruthyNum : JsNum → Bool
  | .fin q => decide (q ≠ 0)
  | .nan => false
  | _ => true

/- Decimal digits of a fractional part 0 ≤ f < 1, up to a fuel bound. -/
def fracDigitChars : ℚ → Nat → List Char
  | _, 0 => []
  | f, n + 1 =>
      if f = 0 then []
      else
        let x := f * 10
        Char.ofNat (48 + (⌊x⌋ : ℤ).toNat) :: fracDigitChars (x - (⌊x⌋ : ℤ)) n

/- Decimal printing of a finite JS number (exact where the decimal
   expansion terminates within 20 digits; JS shortest-round-trip printing
   agrees on all integers). -/
def ratToJsDecimal (q : ℚ) : String :=
  let sign : String := if q < 0 then "-" else ""
  let a := |q|
  let ip := toString (⌊a⌋ : ℤ)
  let f := a - (⌊a⌋ : ℤ)
  if f = 0 then sign ++ ip
  else sign ++ ip ++ "." ++ String.mk (fracDigitChars f 20)

/- `String(n)` for a JS number. -/
def JsNum.toJsString : JsNum → String
  | .fin q => ratToJsDecimal q
  | .nan => "NaN"
  | .inf => "Infinity"
  | .ninf => "-Infinity"

def pad2 (n : Nat) : String := if n < 10 then "0" ++ toString n else toString n

/- `toFixed(2)` on a finite value (sign of a rounded-to-zero negative is
   not modelled; irrelevant to the claims). -/
def toFixed2Q (q : ℚ) : String :=
  let m := (⌊q * 100 + 1/2⌋ : ℤ)
  let s : String := if m < 0 then "-" else ""
  s ++ toString (m.natAbs / 100) ++ "." ++ pad2 (m.natAbs % 100)

def jsToFixed2 : JsNum → String
  | .fin q => toFixed2Q q
  | .nan => "NaN"
  | .inf => "Infinity"
  | .ninf => "-Infinity"

/- Untyped JavaScript values, for the untyped boundaries of the client
   (response-shape validation, error-body inspection). -/
inductive JsValue where
  | vnull
  | vundefined
  | vbool (b : Bool)
  | vnum (n : JsNum)
  | vstr (s : String)
  | varr (elems : List JsValue)
  | vobj (fields : List (String × JsValue))

def jsTruthy : JsValue → Bool
  | .vnull => false
  | .vundefined => false
  | .vbool b => b
  | .vnum n => jsTruthyNum n
  | .vstr s => s != ""
  | .varr _ => true
  | .vobj _ => true

/- `typeof`; note `typeof null` is "object". -/
def jsTypeof : JsValue → String
  | .vnull => "object"
  | .vundefined => "undefined"
  | .vbool _ => "boolean"
  | .vnum _ => "number"
  | .vstr _ => "string"
  | .varr _ => "object"
  | .vobj _ => "object"

/- Property access `v[name]`.  The source only dereferences after a
   truthiness guard, so the throwing cases (null/undefined receivers)
   are never reached and a total model is faithful there.  Named
   properties of primitives and arrays (none of which the source reads)
   are absent. -/
def getField (v : JsValue) (name : String) : JsValue :=
  match v with
  | .vobj fields => (fields.lookup name).getD .vundefined
  | _ => .vundefined

/- The `in` operator, applied by the source only to values already
   checked to be objects. -/
def hasProp (v : JsValue) (name : String) : Bool :=
  match v with
  | .vobj fields => (fields.lookup name).isSome
  | _ => false

mutual

/- `String(v)`. -/
def jsToString : JsValue → String
  | .vnull => "null"
  | .vundefined => "undefined"
  | .vbool b => if b then "true" else "false"
  | .vnum n => n.toJsString
  | .vstr s => s
  | .varr xs => String.intercalate "," (jsToStringArr xs)
  | .vobj _ => "[object Object]"

/- Array elements stringify elementwise, with null/undefined as "". -/
def jsToStringArr : List JsValue → List String
  | [] => []
  | .vnull :: xs => "" :: jsToStringArr xs
  | .vundefined :: xs => "" :: jsToStringArr xs
  | x :: xs => jsToString x :: jsToStringArr xs

end

/- ===== Domain types from src/app/dashboard/page.tsx ===== -/

inductive SubscoreKey where
  | discipline
  | riskIntegrity
  | executionStability
  | behaviouralVolatility
  | consistency
deriving DecidableEq

structure Subscores where
  discipline : JsNum
  riskIntegrity : JsNum
  executionStability : JsNum
  behaviouralVolatility : JsNum
  consistency : JsNum
deriving DecidableEq

def Subscores.get (s : Subscores) : SubscoreKey → JsNum
  | .discipline => s.discipline
  | .riskIntegrity => s.riskIntegrity
  | .executionStability => s.executionStability
  | .behaviouralVolatility => s.behaviouralVolatility
  | .consistency => s.consistency

/- `type ATXSnapshot = { score; subscores; profiles?; flags }`. -/
structure ATXSnapshot where
  score : JsNum
  subscores : Subscores
  profiles : Option (List String)
  flags : List String
deriving DecidableEq

structure EpochEvent where
  epochId : Int
  startedAt : JsNum
  endedAt : Option JsNum
  triggerFlags : List String
  endedReason : Option String
  startedATX : Option ATXSnapshot
  endedATX : Option ATXSnapshot
  createdAt : JsNum
  provisional : Option Bool
  state : Option String
  confirmedAt : Option JsNum

/- `type TrendPoint`.  `startedAt` is declared `number` but the chart
   defends with a `typeof` check, so it is modelled as optional. -/
structure TrendPoint where
  startedAt : Option JsNum
  label : Option String
  tradeCount : Option JsNum
  score : Option JsNum
  subscores : Option Subscores
  flags : Option (List String)
  profiles : Option (List String)
  atx : Option ATXSnapshot

structure Digest where
  summary : String
  topDriver : Option String
  keySignals : List String
  watchList : List String

structure ObservationStats where
  totalTrades : Int
  closedTrades : Int
  activeDays : Int

structure Commentary where
  summary : String
  bulletPoints : Option (List String)
  bullets : Option (List String)
  reflectionQuestions : Option (List String)

/- `type ATXResponse` (fields the verified claims never read — `epoch`,
   `epochs`, `maturity` — are elided). -/
structure ATXResponse where
  accountId : Int
  sources : Option (List String)
  tradeCount : Int
  timeframe : String
  atx : ATXSnapshot
  commentary : Option Commentary
  observation : Option ObservationStats
  baselineLocked : Option Bool

inductive MetricKey where
  | score
  | sub (k : SubscoreKey)

def SUBSCORE_KEYS : List SubscoreKey :=
  [.discipline, .riskIntegrity, .executionStability, .behaviouralVolatility, .consistency]

def metricLabel : MetricKey → String
  | .score => "ATX"
  | .sub .discipline => "Discipline"
  | .sub .riskIntegrity => "Risk integrity"
  | .sub .executionStability => "Execution stability"
  | .sub .behaviouralVolatility => "Behavioural volatility"
  | .sub .consistency => "Consistency"

/- `getPointATX`: the nested guard `p.atx && typeof p.atx.score === 'number'`
   always passes in the typed model (a snapshot's score is a number). -/
def getPointATX (p : TrendPoint) : Option ATXSnapshot :=
  match p.atx with
  | some a => some a
  | none =>
    match p.score, p.subscores with
    | some s, some subs =>
        some { score := s, subscores := subs,
               flags := p.flags.getD [], profiles := some (p.profiles.getD []) }
    | _, _ => none

/- `getMetricValueFromPoint`; `atx.subscores?.[k] ?? null` never misses
   because a snapshot always carries its subscores. -/
def getMetricValueFromPoint (p : TrendPoint) (key : MetricKey) : Option JsNum :=
  match getPointATX p with
  | none => none
  | some atx =>
    match key with
    | .score => some atx.score
    | .sub k => some (atx.subscores.get k)

/- `clamp(n, a, b) = Math.max(a, Math.min(b, n))`. -/
def clamp (n a b : JsNum) : JsNum := jsMax a (jsMin b n)

structure PathPt where
  x : JsNum
  y : JsNum

def buildPathStep (d : String) (p : PathPt) : String :=
  if d = "" then "M " ++ jsToFixed2 p.x ++ " " ++ jsToFixed2 p.y
  else d ++ " L " ++ jsToFixed2 p.x ++ " " ++ jsToFixed2 p.y

/- `buildPath`: the for-loop accumulating the SVG path string. -/
def buildPath (points : List PathPt) : String := points.foldl buildPathStep ""

/- `Array.prototype.join(', ')`. -/
def joinFlags : List String → String
  | [] => ""
  | [f] => f
  | f :: rest => f ++ ", " ++ joinFlags rest

/- `String.prototype.includes`: substring containment. -/
def strContains (s pat : String) : Bool := decide (pat.data <:+: s.data)

/- `friendlyEpochLabel`.  Note `e.triggerFlags ?? []` is the identity on
   the non-optional field, and the `includes` tests run on the joined
   string, i.e. they are substring tests. -/
def friendlyEpochLabel (e : EpochEvent) : String :=
  let flags := joinFlags e.triggerFlags
  let fromFlags : String :=
    if strContains flags "RISK_INTEGRITY_LOW" && strContains flags "BEHAVIOURAL_VOLATILITY_HIGH" then
      "Risk integrity + behavioural volatility event"
    else if strContains flags "RISK_INTEGRITY_LOW" then "Risk integrity disruption"
    else if strContains flags "DISCIPLINE_LOW" then "Discipline disruption"
    else if strContains flags "BEHAVIOURAL_VOLATILITY_HIGH" then "Behavioural volatility spike"
    else if flags != "" then "Behavioural phase shift"
    else "Epoch shift"
  match e.endedReason with
  | some r => if r != "" then r else fromFlags
  | none => fromFlags

/- `latestPoint` / `previousPoint` memos over `trend?.points ?? []`. -/
def latestPoint (pts : List TrendPoint) : Option TrendPoint := pts.getLast?

def previousPoint (pts : List TrendPoint) : Option TrendPoint :=
  if 2 ≤ pts.length then pts.get? (pts.length - 2) else none

structure TopDriver where
  text : String
  key : SubscoreKey
  delta : JsNum

/- One iteration of the `topDriver` loop body. -/
def driverStep (a b : ATXSnapshot) (best : Option (SubscoreKey × JsNum)) (k : SubscoreKey) :
    Option (SubscoreKey × JsNum) :=
  let da := a.subscores.get k
  let db := b.subscores.get k
  let delta := jsRound (jsMul (jsSub da db) (.fin 1))
  let dabs := jsAbs delta
  match best with
  | none => some (k, delta)
  | some (bk, bd) => if jsGt dabs (jsAbs bd) then some (k, delta) else some (bk, bd)

def topDriver (latest previous : Option TrendPoint) : Option TopDriver :=
  match latest.bind getPointATX, previous.bind getPointATX with
  | some a, some b =>
    match SUBSCORE_KEYS.foldl (driverStep a b) none with
    | none => none
    | some (bk, bd) =>
      let dir := if jsGe bd (.fin 0) then "increased" else "decreased"
      let signed := if jsGe bd (.fin 0) then "+" ++ bd.toJsString else bd.toJsString
      some { text := "Top driver: " ++ metricLabel (.sub bk) ++ " " ++ dir ++ " (" ++ signed
                       ++ ") versus the prior observation.",
             key := bk, delta := bd }
  | _, _ => none

def trendTopDriver (pts : List TrendPoint) : Option TopDriver :=
  topDriver (latestPoint pts) (previousPoint pts)

/- `keySignals` memo.  `data?.atx` is always truthy when `data` is set. -/
def keySignals (trendDigest : Option Digest) (data : Option ATXResponse) : List String :=
  let fromDigest : List String := (trendDigest.map (fun d => d.keySignals)).getD []
  if fromDigest.length ≠ 0 then fromDigest.take 3
  else
    match data with
    | none => []
    | some dat =>
      let a := dat.atx
      let b0 : List String :=
        if a.flags.contains "INSUFFICIENT_DATA" then
          ["Observation is early — signals may be noisy until a baseline forms."]
        else []
      let b1 : List String :=
        if a.flags.contains "RISK_INTEGRITY_LOW" then ["Risk integrity is below the stable range."]
        else if jsGe a.subscores.riskIntegrity (.fin 70) then
          ["Risk integrity is holding in a strong range."]
        else []
      let b2 : List String :=
        if a.flags.contains "DISCIPLINE_LOW" then ["Discipline stability is under pressure."]
        else if jsGe a.subscores.discipline (.fin 70) then
          ["Discipline is holding in a strong range."]
        else []
      let b3 : List String :=
        if a.flags.contains "BEHAVIOURAL_VOLATILITY_HIGH" then ["Behavioural volatility is elevated."]
        else if jsLe a.subscores.behaviouralVolatility (.fin 50) then
          ["Behavioural volatility is contained."]
        else []
      (b0 ++ b1 ++ b2 ++ b3).take 3

/- `watchList` memo: `Array.isArray(w)` holds whenever the digest is set. -/
def watchList (trendDigest : Option Digest) : List String :=
  match trendDigest with
  | some d => d.watchList.take 3
  | none => []

def disciplineGood (x : ATXSnapshot) : Bool :=
  jsGe x.subscores.discipline (.fin 60) && !(x.flags.contains "DISCIPLINE_LOW")

def riskGood (x : ATXSnapshot) : Bool :=
  jsGe x.subscores.riskIntegrity (.fin 60) && !(x.flags.contains "RISK_INTEGRITY_LOW")

def calmGood (x : ATXSnapshot) : Bool :=
  jsLe x.subscores.behaviouralVolatility (.fin 60) && !(x.flags.contains "BEHAVIOURAL_VOLATILITY_HIGH")

structure ActionMetrics where
  disciplineStreakDays : Nat
  riskCompliance14d : ℚ
  calmDays14d : ℚ
  instabilityDays14d : Nat
deriving DecidableEq

/- `actionable` memo.  `slice(-14)` is `drop (length - 14)` (the whole
   list when it has fewer than 14 entries); the discipline streak counts
   good days backwards from the latest snapshot. -/
def actionable (points : List TrendPoint) : Option ActionMetrics :=
  let pts := (points.map getPointATX).reduceOption
  if pts.length = 0 then none
  else
    let tail := pts.drop (pts.length - 14)
    let streak := (pts.reverse.takeWhile disciplineGood).length
    let riskRate : ℚ :=
      if tail.length ≠ 0 then ((tail.filter riskGood).length : ℚ) / (tail.length : ℚ) else 0
    let calmRate : ℚ :=
      if tail.length ≠ 0 then ((tail.filter calmGood).length : ℚ) / (tail.length : ℚ) else 0
    let instability :=
      (tail.filter (fun x =>
        x.flags.contains "DISCIPLINE_LOW" || x.flags.contains "RISK_INTEGRITY_LOW"
          || x.flags.contains "BEHAVIOURAL_VOLATILITY_HIGH")).length
    some { disciplineStreakDays := streak, riskCompliance14d := riskRate,
           calmDays14d := calmRate, instabilityDays14d := instability }

/- ===== Chart main line (dashboard `chart` memo) ===== -/

def xsW : ℚ := 980
def ysH : ℚ := 300
def chartPad : ℚ := 32

def xForTs (minTs spanTs ts : JsNum) : JsNum :=
  jsAdd (.fin chartPad) (jsMul (jsDiv (jsSub ts minTs) spanTs) (.fin (xsW - chartPad * 2)))

def yForV (v : JsNum) : JsNum :=
  jsAdd (.fin chartPad)
    (jsMul (jsSub (.fin 1) (jsDiv (clamp v (.fin 0) (.fin 100)) (.fin 100)))
      (.fin (ysH - chartPad * 2)))

/- `pts = (trend?.points ?? []).filter(p => typeof p.startedAt === 'number')`. -/
def chartPts (pts : List TrendPoint) : List TrendPoint :=
  pts.filter (fun p => p.startedAt.isSome)

structure ChartEntry where
  x : JsNum
  y : JsNum
  ts : JsNum
  point : TrendPoint
  v : JsNum

/- Body of the `mainPts` map: keep only finite metric values.  After the
   `chartPts` filter `p.startedAt` is present, so the default in `getD`
   is never used. -/
def chartMainEntry (minTs spanTs : JsNum) (p : TrendPoint) : Option ChartEntry :=
  match getMetricValueFromPoint p .score with
  | some v =>
      if v.isFinite then
        some { x := xForTs minTs spanTs (p.startedAt.getD (.fin 0)), y := yForV v,
               ts := p.startedAt.getD (.fin 0), point := p, v := v }
      else none
  | none => none

/- The main-line part of the `chart` memo: `null` when fewer than two
   timestamped points or fewer than two drawable points exist. -/
def chartModel (points : List TrendPoint) : Option (List ChartEntry × String) :=
  let pts := chartPts points
  if pts.length < 2 then none
  else
    let minTs := (pts.head?.bind (fun p => p.startedAt)).getD (.fin 0)
    let maxTs := (pts.getLast?.bind (fun p => p.startedAt)).getD (.fin 0)
    let spanTs := jsMax (.fin 1) (jsSub maxTs minTs)
    let mainPts := (pts.map (chartMainEntry minTs spanTs)).reduceOption
    if mainPts.length < 2 then none
    else some (mainPts, buildPath (mainPts.map (fun e => { x := e.x, y := e.y })))

/- ===== Sparkline (src/components/Sparkline.tsx) ===== -/

def sparkW : ℚ := 100
def sparkH : ℚ := 24
def sparkPad : ℚ := 2

def sparkXFor (spanX : ℚ) (i : Nat) : ℚ :=
  sparkPad + ((i : ℚ) / spanX) * (sparkW - sparkPad * 2)

def sparkYFor (minv maxv v : ℚ) : ℚ :=
  let t := (max minv (min maxv v) - minv) / max 1 (maxv - minv)
  sparkPad + (1 - t) * (sparkH - sparkPad * 2)

/- The Sparkline path loop: entries that are not finite numbers are
   skipped without advancing the path. -/
def sparkGo (minv maxv spanX : ℚ) : List (Option JsNum) → Nat → String → String
  | [], _, d => d
  | v :: rest, i, d =>
      match v with
      | some (.fin q) =>
          let x := sparkXFor spanX i
          let y := sparkYFor minv maxv q
          let d2 := if d != "" then d ++ " L " ++ toFixed2Q x ++ " " ++ toFixed2Q y
                    else "M " ++ toFixed2Q x ++ " " ++ toFixed2Q y
          sparkGo minv maxv spanX rest (i + 1) d2
      | _ => sparkGo minv maxv spanX rest (i + 1) d

def sparklineD (minv maxv : ℚ) (values : List (Option JsNum)) : String :=
  sparkGo minv maxv (max 1 ((values.length : ℚ) - 1)) values 0 ""

/- ===== Journal day card (src/app/journal/page.tsx) ===== -/

/- The day-level snapshot shape of `ATXDayResponse` (`atx` is null when no
   trades matched the filter). -/
structure DayATX where
  score : JsNum
  subscores : Subscores
  flags : List String

structure ATXDayResponse where
  accountId : Int
  date : String
  sources : List String
  tradeCount : Int
  atx : Option DayATX
  commentary : Option Commentary

inductive DayBody where
  | notLoaded (msg : String)
  | noATX (msg : String)
  | subscoreGrid (discipline riskIntegrity executionStability behaviouralVolatility consistency : JsNum)

structure DayATXCard where
  headerRight : String
  body : DayBody

/- The ATX micro-summary of the journal page: header text
   (`atxDay?.atx ? Score … : 'No ATX for this day'`) and the body branch
   (`!atxDay`, `!atxDay.atx`, or the subscore grid). -/
def renderDayATX (atxDay : Option ATXDayResponse) : DayATXCard :=
  { headerRight :=
      match atxDay with
      | some d =>
        match d.atx with
        | some a => "Score " ++ a.score.toJsString
        | none => "No ATX for this day"
      | none => "No ATX for this day"
  , body :=
      match atxDay with
      | none => .notLoaded "ATX not loaded yet."
      | some d =>
        match d.atx with
        | none => .noATX "No trades for this day (or filters removed them), so no ATX is computed."
        | some a => .subscoreGrid a.subscores.discipline a.subscores.riskIntegrity
            a.subscores.executionStability a.subscores.behaviouralVolatility
            a.subscores.consistency }

/- Every numeric score the card body displays. -/
def DayBody.displayedNumbers : DayBody → List JsNum
  | .subscoreGrid d r e b c => [d, r, e, b, c]
  | _ => []

def DayATXCard.displayedNumbers (card : DayATXCard) : List JsNum :=
  card.body.displayedNumbers

/- ===== `loadATX` response-shape validation (dashboard) ===== -/

structure LoadATXState where
  data : Option JsValue
  debugPayload : Option JsValue
  err : Option String

/- The shape check in `loadATX`:
   `if (!r || typeof r !== 'object' || !r.atx || typeof r.atx.score !== 'number')`. -/
def loadATXHandle (res : JsValue) : LoadATXState :=
  if !(jsTruthy res) || jsTypeof res != "object" || !(jsTruthy (getField res "atx"))
      || jsTypeof (getField (getField res "atx") "score") != "number" then
    { data := none, debugPayload := some res, err := some "Unexpected ATX response shape." }
  else
    { data := some res, debugPayload := none, err := none }

/- ===== apiFetch / ApiError (src/lib/api.ts) ===== -/

def joinUrl (base path : String) : String :=
  if base = "" then path
  else if base.endsWith "/" && path.startsWith "/" then base.dropRight 1 ++ path
  else if !(base.endsWith "/") && !(path.startsWith "/") then base ++ "/" ++ path
  else base ++ path

structure ApiError where
  message : String
  status : Nat
  statusText : String
  url : String
  json : JsValue
  bodyText : Option String

/- The observable part of a fetch `Response`, after the body has been
   parsed exactly as `apiFetch` does: `parsedJson` is `vnull` when no JSON
   was obtained (absent body, non-JSON body, or parse failure), and
   `parsedText` is the body text when it was read as text. -/
structure FetchResponse where
  status : Nat
  statusText : String
  parsedJson : JsValue
  parsedText : Option String

/- JS `||` restricted to the nullable strings of the message cascade. -/
def jsOrStr (a : Option String) (b : String) : String :=
  match a with
  | some s => if s != "" then s else b
  | none => b

def JsValue.isNull : JsValue → Bool
  | .vnull => true
  | _ => false

/- The message chosen for a failed response:
   `json.error` (via `String(…)`) || `json.message` || body text ||
   `Request failed (status)`. -/
def errorMessage (parsedJson : JsValue) (parsedText : Option String) (status : Nat) : String :=
  let e :=
    if jsTruthy parsedJson && jsTypeof parsedJson == "object" && !parsedJson.isNull
        && hasProp parsedJson "error" then
      some (jsToString (getField parsedJson "error"))
    else none
  let m :=
    if jsTruthy parsedJson && jsTypeof parsedJson == "object" && !parsedJson.isNull
        && hasProp parsedJson "message" then
      some (jsToString (getField parsedJson "message"))
    else none
  jsOrStr e (jsOrStr m (jsOrStr parsedText ("Request failed (" ++ toString status ++ ")")))

inductive FetchOut where
  | jsonOut (v : JsValue)
  | textOut (s : String)
  | undefinedOut

/- `Response.ok`: status in the inclusive range 200–299. -/
def resOk (status : Nat) : Bool := decide (200 ≤ status) && decide (status < 300)

/- The resolved value of `apiFetch` on an ok response: undefined on 204,
   else the parsed JSON when one was obtained (`parsedJson != null`), else
   nonempty body text, else undefined (the final
   `try res.json() … catch return undefined` re-read of an already
   consumed body always lands in the catch). -/
def apiFetchSuccess (r : FetchResponse) : FetchOut :=
  if r.status = 204 then .undefinedOut
  else
    match r.parsedJson with
    | .vnull =>
      match r.parsedText with
      | some t => if t.length ≠ 0 then .textOut t else .undefinedOut
      | none => .undefinedOut
    | j => .jsonOut j

/- `apiFetch` after the body has been parsed: throw an `ApiError` on a
   non-ok status, otherwise resolve. -/
def apiFetchModel (base path : String) (r : FetchResponse) : Except ApiError FetchOut :=
  let url := joinUrl base path
  if !(resOk r.status) then
    .error { message := errorMessage r.parsedJson r.parsedText r.status,
             status := r.status, statusText := r.statusText, url := url,
             json := r.parsedJson, bodyText := r.parsedText }
  else .ok (apiFetchSuccess r)

/- ===== Token storage (src/lib/auth.ts) ===== -/

/- `String.prototype.startsWith`. -/
def jsStartsWith (s p : String) : Bool := p.data.isPrefixOf s.data

/- `token.startsWith('Bearer ') ? token.slice('Bearer '.length) : token`. -/
def stripBearer (s : String) : String :=
  if jsStartsWith s "Bearer " then String.mk (s.data.drop 7) else s

/- `setToken` (browser context; the SSR early-return is not modelled):
   the stored value under `auric_token`. -/
def setTokenStore (token : String) : Option String :=
  some (stripBearer token)

/- `getToken`: `if (!raw) return null` treats the empty string as absent. -/
def getTokenFrom (store : Option String) : Option String :=
  match store with
  | none => none
  | some raw => if raw = "" then none else some (stripBearer raw)

/- Reading back immediately after storing. -/
def tokenRoundTrip (t : String) : Option String := getTokenFrom (setTokenStore t)

/- ===== Spec-side predicates ===== -/

def JsValue.isNumber : JsValue → Bool
  | .vnum _ => true
  | _ => false

def isNonNullObject : JsValue → Bool
  | .vobj _ => true
  | .varr _ => true
  | _ => false

/- The spec's acceptance condition for the ATX account endpoint: a
   non-null object whose `atx.score` is a number. -/
def specATXAccept (v : JsValue) : Bool :=
  isNonNullObject v && (getField (getField v "atx") "score").isNumber

/- The spec's notion of a calm daily observation. -/
def specCalm (x : ATXSnapshot) : Prop :=
  jsLe x.subscores.behaviouralVolatility (.fin 60) = true
    ∧ "BEHAVIOURAL_VOLATILITY_HIGH" ∉ x.flags

instance (x : ATXSnapshot) : Decidable (specCalm x) := by
  unfold specCalm; infer_instance

/- The snapshots entering the 14-day window of the action metrics. -/
def last14Snapshots (points : List TrendPoint) : List ATXSnapshot :=
  let snaps := points.filterMap getPointATX
  snaps.drop (snaps.length - 14)

/- ===== C2: journal day card with a null snapshot ===== -/

/-- C2: when the day-level ATX response carries `atx: null`, the journal
page shows the "No ATX for this day" header, the "no ATX is computed"
body, and displays no score and no subscores (in particular no zero
score). -/
theorem journal_null_atx_renders_no_score (d : ATXDayResponse) (h : d.atx = none) :
    (renderDayATX (some d)).headerRight = "No ATX for this day"
    ∧ (renderDayATX (some d)).body
        = .noATX "No trades for this day (or filters removed them), so no ATX is computed."
    ∧ (renderDayATX (some d)).displayedNumbers = [] := by
  refine ⟨?_, ?_, ?_⟩ <;>
    simp [renderDayATX, h, DayATXCard.displayedNumbers, DayBody.displayedNumbers]

def witnessDayResponse : ATXDayResponse :=
  { accountId := 7, date := "2026-01-05", sources := [], tradeCount := 0,
    atx := none, commentary := none }

/-- Witness for C2 at a concrete empty day. -/
theorem journal_null_atx_renders_no_score_witness :
    (renderDayATX (some witnessDayResponse)).headerRight = "No ATX for this day"
    ∧ (renderDayATX (some witnessDayResponse)).body
        = .noATX "No trades for this day (or filters removed them), so no ATX is computed."
    ∧ (renderDayATX (some witnessDayResponse)).displayedNumbers = [] :=
  journal_null_atx_renders_no_score witnessDayResponse rfl

/- ===== C7: nested and flattened trend-point snapshots ===== -/

/-- C7: `getPointATX` returns a nested snapshot as is; when the point is
flattened it assembles the same snapshot from the flattened fields,
defaulting flags and profiles to empty lists when absent; with neither a
nested snapshot nor a complete flattened pair it returns null — so the
nested and the flattened encoding of one snapshot extract identically. -/
theorem getPointATX_shapes (p q : TrendPoint) (a : ATXSnapshot) (ps : List String) :
    (p.atx = some a → getPointATX p = some a)
    ∧ (q.atx = none → q.score = some a.score → q.subscores = some a.subscores →
        q.flags = some a.flags → q.profiles = some ps → a.profiles = some ps →
        getPointATX q = some a)
    ∧ (q.atx = none → q.score = some a.score → q.subscores = some a.subscores →
        q.flags = none → q.profiles = none →
        getPointATX q = some { score := a.score, subscores := a.subscores,
                               profiles := some [], flags := [] })
    ∧ (q.atx = none → (q.score = none ∨ q.subscores = none) → getPointATX q = none) := by
  refine ⟨?_, ?_, ?_, ?_⟩
  · intro h; simp [getPointATX, h]
  · intro h hs hsub hf hp hap
    obtain ⟨as, asub, apf, afl⟩ := a
    simp only at hap hs hsub hf
    subst hap
    simp [getPointATX, h, hs, hsub, hf, hp]
  · intro h hs hsub hf hp
    simp [getPointATX, h, hs, hsub, hf, hp]
  · intro h hsc
    rcases hsc with hsc | hsc <;> simp [getPointATX, h, hsc]

def witnessSnap : ATXSnapshot :=
  { score := .fin 72,
    subscores := { discipline := .fin 70, riskIntegrity := .fin 65,
                   executionStability := .fin 60, behaviouralVolatility := .fin 40,
                   consistency := .fin 55 },
    profiles := some ["steady"], flags := ["INSUFFICIENT_DATA"] }

def witnessNestedPoint : TrendPoint :=
  { startedAt := some (.fin 1000), label := none, tradeCount := none, score := none,
    subscores := none, flags := none, profiles := none, atx := some witnessSnap }

def witnessFlatPoint : TrendPoint :=
  { startedAt := some (.fin 1000), label := none, tradeCount := none,
    score := some witnessSnap.score, subscores := some witnessSnap.subscores,
    flags := some witnessSnap.flags, profiles := some ["steady"], atx := none }

/-- Witness for C7: the two encodings of one concrete snapshot extract to
the same snapshot. -/
theorem getPointATX_shapes_witness :
    getPointATX witnessNestedPoint = some witnessSnap
    ∧ getPointATX witnessFlatPoint = some witnessSnap :=
  ⟨(getPointATX_shapes witnessNestedPoint witnessFlatPoint witnessSnap ["steady"]).1 rfl,
   (getPointATX_shapes witnessNestedPoint witnessFlatPoint witnessSnap ["steady"]).2.1
     rfl rfl rfl rfl rfl rfl⟩

/- ===== C8: bounded narrative lists ===== -/

/-- C8: the dashboard shows at most 3 key signals and at most 3 watch-list
entries, however many the digest supplies. -/
theorem narrative_lists_bounded (td : Option Digest) (data : Option ATXResponse) :
    (keySignals td data).length ≤ 3 ∧ (watchList td).length ≤ 3 := by
  constructor
  · simp only [keySignals]
    split
    · exact List.length_take_le 3 _
    · split
      · simp
      · exact List.length_take_le 3 _
  · simp only [watchList]
    split
    · exact List.length_take_le 3 _
    · simp

/- ===== C10: token round-trip ===== -/

/-- C10 counterexample: the claimed round-trip law fails as stated — the
empty token (which does not start with "Bearer ") reads back as null, and
a token that itself starts with "Bearer " is stripped twice across
store-then-read, so storing "Bearer " ++ "Bearer abc" yields "abc". -/
theorem tokenRoundTrip_cex :
    jsStartsWith "" "Bearer " = false
    ∧ tokenRoundTrip "" = none
    ∧ tokenRoundTrip ("Bearer " ++ "Bearer abc") = some "abc"
    ∧ some "abc" ≠ some ("Bearer abc") := by
  refine ⟨by decide, by decide, by decide, by decide⟩

/-- C10 amended: for a nonempty token that does not start with "Bearer ",
reading after storing returns the token itself, and storing it with one
"Bearer " prefix attached returns the bare token. -/
theorem tokenRoundTrip_amended (t : String) (h1 : t ≠ "")
    (h2 : jsStartsWith t "Bearer " = false) :
    tokenRoundTrip t = some t ∧ tokenRoundTrip ("Bearer " ++ t) = some t := by
  have hstrip : stripBearer t = t := by
    unfold stripBearer
    rw [h2]
    simp
  have hpre : jsStartsWith ("Bearer " ++ t) "Bearer " = true := by
    unfold jsStartsWith
    rw [String.data_append, List.isPrefixOf_iff_prefix]
    exact List.prefix_append _ _
  have hstrip2 : stripBearer ("Bearer " ++ t) = t := by
    unfold stripBearer
    rw [hpre, if_pos rfl, String.data_append,
      show (7 : Nat) = ("Bearer ".data).length from rfl, List.drop_left]
  constructor
  · show getTokenFrom (some (stripBearer t)) = some t
    rw [hstrip]
    unfold getTokenFrom
    simp [h1, hstrip]
  · show getTokenFrom (some (stripBearer ("Bearer " ++ t))) = some t
    rw [hstrip2]
    unfold getTokenFrom
    simp [h1, hstrip]

/-- Witness for C10 amended at the concrete token "abc". -/
theorem tokenRoundTrip_amended_witness :
    tokenRoundTrip "abc" = some "abc" ∧ tokenRoundTrip ("Bearer " ++ "abc") = some "abc" :=
  tokenRoundTrip_amended "abc" (by decide) (by decide)

/- ===== C4: calm days in the 14-day action metrics ===== -/

theorem calmGood_eq_decide (x : ATXSnapshot) : calmGood x = decide (specCalm x) := by
  unfold calmGood specCalm
  by_cases hb : jsLe x.subscores.behaviouralVolatility (.fin 60) = true <;>
    by_cases hf : "BEHAVIOURAL_VOLATILITY_HIGH" ∈ x.flags <;>
      simp [hb, hf, List.contains]

/-- C4: whenever the 14-day action metrics are computed, the calm-day rate
counts exactly the snapshots in the trailing 14-day window whose
behavioural-volatility subscore is at most 60 and whose flags do not
include BEHAVIORAL_VOLATILITY_HIGH, divided by the window size. -/
theorem actionable_calm_spec (points : List TrendPoint) (m : ActionMetrics)
    (h : actionable points = some m) :
    m.calmDays14d
      = (((last14Snapshots points).countP (fun x => decide (specCalm x)) : ℚ))
        / (((last14Snapshots points).length : ℚ)) := by
  have hmap : (points.map getPointATX).reduceOption = points.filterMap getPointATX := by
    simp [List.reduceOption]
  unfold actionable at h
  rw [hmap] at h
  by_cases h0 : (points.filterMap getPointATX).length = 0
  · rw [if_pos h0] at h
    exact absurd h (by simp)
  · rw [if_neg h0] at h
    have hm := (Option.some.injEq _ _).mp h
    have htail : ((points.filterMap getPointATX).drop
        ((points.filterMap getPointATX).length - 14)).length ≠ 0 := by
      rw [List.length_drop]
      omega
    have hcalm :
        (((points.filterMap getPointATX).drop
            ((points.filterMap getPointATX).length - 14)).filter calmGood).length
          = ((points.filterMap getPointATX).drop
              ((points.filterMap getPointATX).length - 14)).countP
                (fun x => decide (specCalm x)) := by
      rw [List.countP_eq_length_filter]
      congr 1
      apply List.filter_congr
      intro x _
      exact calmGood_eq_decide x
    rw [← hm]
    dsimp only [last14Snapshots]
    rw [if_pos htail, hcalm]

def witnessCalmSnap : ATXSnapshot :=
  { score := .fin 80,
    subscores := { discipline := .fin 80, riskIntegrity := .fin 80,
                   executionStability := .fin 70, behaviouralVolatility := .fin 10,
                   consistency := .fin 60 },
    profiles := some [], flags := [] }

def witnessWildSnap : ATXSnapshot :=
  { score := .fin 30,
    subscores := { discipline := .fin 20, riskIntegrity := .fin 20,
                   executionStability := .fin 30, behaviouralVolatility := .fin 95,
                   consistency := .fin 30 },
    profiles := some [], flags := ["BEHAVIOURAL_VOLATILITY_HIGH"] }

def witnessTrendPoints : List TrendPoint :=
  [ { startedAt := some (.fin 1), label := none, tradeCount := none, score := none,
      subscores := none, flags := none, profiles := none, atx := some witnessWildSnap },
    { startedAt := some (.fin 2), label := none, tradeCount := none, score := none,
      subscores := none, flags := none, profiles := none, atx := some witnessCalmSnap } ]

/-- Witness for C4: on a two-day trend with one calm and one volatile day
the computed calm rate is the claimed count over the window size. -/
theorem actionable_calm_spec_witness :
    (actionable witnessTrendPoints).isSome = true
    ∧ ((actionable witnessTrendPoints).getD
        { disciplineStreakDays := 0, riskCompliance14d := 0, calmDays14d := 0,
          instabilityDays14d := 0 }).calmDays14d
      = (((last14Snapshots witnessTrendPoints).countP (fun x => decide (specCalm x)) : ℚ))
        / (((last14Snapshots witnessTrendPoints).length : ℚ)) := by
  constructor
  · decide
  · exact actionable_calm_spec witnessTrendPoints _ rfl

/- ===== C6: ATX response-shape validation ===== -/

theorem shape_guard (a : JsValue) :
    (!(jsTruthy a) || jsTypeof (getField a "score") != "number")
      = !((getField a "score").isNumber) := by
  cases a with
  | vobj fields =>
      simp only [jsTruthy, getField]
      rcases hl : List.lookup "score" fields with _ | w
      · simp [JsValue.isNumber, jsTypeof]
      · cases w <;> simp [JsValue.isNumber, jsTypeof]
  | vnum n =>
      simp only [jsTruthy, getField, jsTypeof, JsValue.isNumber]
      cases jsTruthyNum n <;> simp
  | vbool b =>
      cases b <;> simp [jsTruthy, getField, jsTypeof, JsValue.isNumber]
  | vstr s =>
      simp only [jsTruthy, getField, jsTypeof, JsValue.isNumber]
      cases s != "" <;> simp
  | _ => simp [jsTruthy, getField, jsTypeof, JsValue.isNumber]

/-- C6: the dashboard accepts an ATX account payload exactly when it is a
non-null object whose atx.score is a number; every other payload is
stored as the debug payload with the error "Unexpected ATX response
shape." and no data. -/
theorem loadATX_shape_spec (v : JsValue) :
    loadATXHandle v =
      if specATXAccept v then
        { data := some v, debugPayload := none, err := none }
      else
        { data := none, debugPayload := some v, err := some "Unexpected ATX response shape." } := by
  unfold loadATXHandle specATXAccept
  cases v with
  | vobj fields =>
      have hg := shape_guard (getField (JsValue.vobj fields) "atx")
      have h1 : jsTruthy (JsValue.vobj fields) = true := rfl
      have h2 : jsTypeof (JsValue.vobj fields) = "object" := rfl
      have h3 : isNonNullObject (JsValue.vobj fields) = true := rfl
      simp only [h1, h2, h3, Bool.not_true, Bool.false_or, Bool.true_and,
        bne_self_eq_false, hg]
      cases hn : (getField (getField (JsValue.vobj fields) "atx") "score").isNumber <;>
        simp [hn]
  | varr elems =>
      have : getField (JsValue.varr elems) "atx" = .vundefined := rfl
      simp [jsTruthy, jsTypeof, isNonNullObject, this, getField, JsValue.isNumber]
  | vnum n =>
      simp only [jsTypeof, isNonNullObject]
      have : (("number" : String) != "object") = true := by decide
      simp [this, getField, JsValue.isNumber]
  | vstr s =>
      simp only [jsTypeof, isNonNullObject]
      have : (("string" : String) != "object") = true := by decide
      simp [this, getField, JsValue.isNumber]
  | vbool b =>
      simp only [jsTypeof, isNonNullObject]
      have : (("boolean" : String) != "object") = true := by decide
      simp [this, getField, JsValue.isNumber]
  | vnull =>
      simp [jsTruthy, isNonNullObject, getField, JsValue.isNumber]
  | vundefined =>
      simp only [jsTypeof, isNonNullObject]
      have : (("undefined" : String) != "object") = true := by decide
      simp [this, getField, JsValue.isNumber, jsTruthy]

/- ===== C5: missing / non-finite values draw no point ===== -/

/- The entries of a sparkline value list that hold a finite number,
   together with their indices. -/
def finiteEntries (values : List (Option JsNum)) : List (Nat × ℚ) :=
  values.enum.filterMap (fun pr => match pr.2 with
    | some (.fin q) => some (pr.1, q)
    | _ => none)

/- Whether a trend point contributes a drawable main-line value. -/
def chartValueFinite (p : TrendPoint) : Bool :=
  match getMetricValueFromPoint p .score with
  | some v => v.isFinite
  | none => false

def chartValueOf (p : TrendPoint) : JsNum :=
  (getMetricValueFromPoint p .score).getD .nan

def specChartEntry (minTs spanTs : JsNum) (p : TrendPoint) : ChartEntry :=
  { x := xForTs minTs spanTs (p.startedAt.getD (.fin 0)), y := yForV (chartValueOf p),
    ts := p.startedAt.getD (.fin 0), point := p, v := chartValueOf p }

theorem sparkStep_eq (minv maxv spanX : ℚ) (d : String) (i : Nat) (q : ℚ) :
    (if d != "" then
        d ++ " L " ++ toFixed2Q (sparkXFor spanX i) ++ " " ++ toFixed2Q (sparkYFor minv maxv q)
      else "M " ++ toFixed2Q (sparkXFor spanX i) ++ " " ++ toFixed2Q (sparkYFor minv maxv q))
      = buildPathStep d { x := .fin (sparkXFor spanX i), y := .fin (sparkYFor minv maxv q) } := by
  unfold buildPathStep jsToFixed2
  by_cases h : d = "" <;> simp [h]

theorem sparkGo_eq (minv maxv spanX : ℚ) :
    ∀ (vs : List (Option JsNum)) (i : Nat) (d : String),
      sparkGo minv maxv spanX vs i d
        = ((vs.enumFrom i).filterMap (fun pr => match pr.2 with
              | some (.fin q) => some (pr.1, q)
              | _ => none)).foldl
            (fun acc pr => buildPathStep acc
              { x := .fin (sparkXFor spanX pr.1), y := .fin (sparkYFor minv maxv pr.2) }) d := by
  intro vs
  induction vs with
  | nil => intro i d; rfl
  | cons v rest ih =>
    intro i d
    rcases v with _ | n
    · simp only [sparkGo, List.enumFrom_cons, List.filterMap_cons]
      exact ih (i + 1) d
    · cases n with
      | fin q =>
        simp only [sparkGo, List.enumFrom_cons, List.filterMap_cons, List.foldl_cons]
        rw [ih (i + 1) _, sparkStep_eq]
      | nan =>
        simp only [sparkGo, List.enumFrom_cons, List.filterMap_cons]
        exact ih (i + 1) d
      | inf =>
        simp only [sparkGo, List.enumFrom_cons, List.filterMap_cons]
        exact ih (i + 1) d
      | ninf =>
        simp only [sparkGo, List.enumFrom_cons, List.filterMap_cons]
        exact ih (i + 1) d

/-- C5: a sparkline draws exactly the entries holding a finite number —
missing (null/undefined) and non-finite entries are skipped, never drawn
as zero — and the chart's main line keeps exactly the trend points whose
selected metric value is a finite number, mapping each kept point to the
coordinates of its own value. -/
theorem chart_skips_nonfinite (minv maxv : ℚ) (values : List (Option JsNum))
    (pts : List TrendPoint) (minTs spanTs : JsNum) :
    sparklineD minv maxv values
      = buildPath ((finiteEntries values).map (fun pr =>
          { x := .fin (sparkXFor (max 1 ((values.length : ℚ) - 1)) pr.1),
            y := .fin (sparkYFor minv maxv pr.2) }))
    ∧ (pts.map (chartMainEntry minTs spanTs)).reduceOption
        = (pts.filter chartValueFinite).map (specChartEntry minTs spanTs) := by
  constructor
  · unfold sparklineD buildPath finiteEntries
    rw [sparkGo_eq, List.foldl_map]
    rfl
  · induction pts with
    | nil => rfl
    | cons p rest ih =>
      simp only [List.map_cons]
      rcases hv : getMetricValueFromPoint p .score with _ | v
      · have he : chartMainEntry minTs spanTs p = none := by
          unfold chartMainEntry; rw [hv]
        have hf : chartValueFinite p = false := by
          unfold chartValueFinite; rw [hv]
        rw [he, List.reduceOption_cons_of_none, List.filter_cons_of_neg (by simp [hf]), ih]
      · cases hfin : v.isFinite with
        | false =>
          have he : chartMainEntry minTs spanTs p = none := by
            simp [chartMainEntry, hv, hfin]
          have hf : chartValueFinite p = false := by
            simp [chartValueFinite, hv, hfin]
          rw [he, List.reduceOption_cons_of_none, List.filter_cons_of_neg (by simp [hf]), ih]
        | true =>
          have he : chartMainEntry minTs spanTs p = some (specChartEntry minTs spanTs p) := by
            simp [chartMainEntry, specChartEntry, chartValueOf, hv, hfin]
          have hf : chartValueFinite p = true := by
            simp [chartValueFinite, hv, hfin]
          rw [he, List.reduceOption_cons_of_some,
            List.filter_cons_of_pos (by simp [hf]), List.map_cons, ih]

/- ===== C9: apiFetch error behaviour ===== -/

/- The spec-side message cascade: the stringified `error` field of the
   JSON body when nonempty, else its `message` field, else the body text,
   else the generic fallback. -/
def specFieldMsg (parsedJson : JsValue) (name : String) : Option String :=
  match parsedJson with
  | .vobj fields => (fields.lookup name).map jsToString
  | _ => none

def specMessage (pj : JsValue) (pt : Option String) (status : Nat) : String :=
  jsOrStr (specFieldMsg pj "error")
    (jsOrStr (specFieldMsg pj "message")
      (jsOrStr pt ("Request failed (" ++ toString status ++ ")")))

theorem errorMessage_eq_spec (pj : JsValue) (pt : Option String) (status : Nat) :
    errorMessage pj pt status = specMessage pj pt status := by
  unfold errorMessage specMessage specFieldMsg
  cases pj with
  | vobj fields =>
      rcases hl : List.lookup "error" fields with _ | ev <;>
        rcases hm : List.lookup "message" fields with _ | mv <;>
          simp [jsTruthy, jsTypeof, JsValue.isNull, hasProp, getField, hl, hm]
  | vnull => simp [jsTruthy]
  | vundefined => simp [jsTruthy]
  | vbool b =>
      have h : jsTypeof (JsValue.vbool b) = "boolean" := rfl
      have h2 : (("boolean" : String) == "object") = false := by decide
      simp [h, h2]
  | vnum n =>
      have h : jsTypeof (JsValue.vnum n) = "number" := rfl
      have h2 : (("number" : String) == "object") = false := by decide
      simp [h, h2]
  | vstr st =>
      have h : jsTypeof (JsValue.vstr st) = "string" := rfl
      have h2 : (("string" : String) == "object") = false := by decide
      simp [h, h2]
  | varr elems =>
      simp [jsTruthy, jsTypeof, hasProp]

/-- C9: apiFetch throws an ApiError exactly when the status is not ok
(outside 200–299); the thrown error carries the response status,
statusText and the request url, and its message is the JSON body's error
field, else the JSON body's message field, else the raw body text, else
"Request failed (status)"; a successful 204 resolves to undefined. -/
theorem apiFetch_spec (base path : String) (r : FetchResponse) :
    ((∃ e, apiFetchModel base path r = .error e) ↔ ¬(200 ≤ r.status ∧ r.status < 300))
    ∧ (∀ e, apiFetchModel base path r = .error e →
        e.status = r.status ∧ e.statusText = r.statusText ∧ e.url = joinUrl base path
          ∧ e.message = specMessage r.parsedJson r.parsedText r.status)
    ∧ (r.status = 204 → apiFetchModel base path r = .ok .undefinedOut) := by
  unfold apiFetchModel
  by_cases hok : resOk r.status = true
  · have hcond : (!(resOk r.status)) = false := by rw [hok]; rfl
    have hrange : 200 ≤ r.status ∧ r.status < 300 := by
      unfold resOk at hok
      simp only [Bool.and_eq_true, decide_eq_true_eq] at hok
      exact hok
    simp only [hcond, Bool.false_eq_true, if_false]
    refine ⟨?_, ?_, ?_⟩
    · constructor
      · rintro ⟨e, he⟩; exact absurd he (by simp)
      · intro hc; exact absurd hrange hc
    · intro e he; exact absurd he (by simp)
    · intro h204
      have : apiFetchSuccess r = .undefinedOut := by
        unfold apiFetchSuccess; rw [if_pos h204]
      rw [this]
  · have hcond : (!(resOk r.status)) = true := by
      cases hr : resOk r.status
      · rfl
      · exact absurd hr hok
    have hrange : ¬(200 ≤ r.status ∧ r.status < 300) := by
      intro hc
      exact hok (by unfold resOk; simp [hc.1, hc.2])
    simp only [hcond, if_true]
    refine ⟨?_, ?_, ?_⟩
    · exact ⟨fun _ => hrange, fun _ => ⟨_, rfl⟩⟩
    · intro e he
      have he2 := (Except.error.injEq _ _).mp he.symm
      rw [he2]
      exact ⟨rfl, rfl, rfl, errorMessage_eq_spec _ _ _⟩
    · intro h204
      exfalso
      apply hok
      rw [h204]
      rfl

def witnessErrResponse : FetchResponse :=
  { status := 404, statusText := "Not Found",
    parsedJson := .vobj [("error", .vstr "account missing")], parsedText := none }

def witnessErrRecord : ApiError :=
  { message := "account missing", status := 404, statusText := "Not Found", url := "/atx/accounts/9",
    json := .vobj [("error", .vstr "account missing")], bodyText := none }

/-- Witness for C9 at a concrete 404 response with a JSON error field. -/
theorem apiFetch_spec_witness :
    witnessErrRecord.status = 404 ∧ witnessErrRecord.statusText = "Not Found"
    ∧ witnessErrRecord.url = joinUrl "" "/atx/accounts/9"
    ∧ witnessErrRecord.message = specMessage (JsValue.vobj [("error", .vstr "account missing")]) none 404 := by
  have h := (apiFetch_spec "" "/atx/accounts/9" witnessErrResponse).2.1 witnessErrRecord (by rfl)
  exact ⟨h.1, h.2.1, h.2.2.1, h.2.2.2⟩

/- ===== C3: the reported top driver ===== -/

def allFiniteSubs (s : Subscores) : Bool :=
  s.discipline.isFinite && s.riskIntegrity.isFinite && s.executionStability.isFinite
    && s.behaviouralVolatility.isFinite && s.consistency.isFinite

/- The rounded subscore delta (latest minus previous) the loop computes. -/
def subDeltaQ (a b : ATXSnapshot) (k : SubscoreKey) : ℚ :=
  ((⌊(a.subscores.get k).finVal - (b.subscores.get k).finVal + 1/2⌋ : ℤ) : ℚ)

def specDriverText (a b : ATXSnapshot) (k : SubscoreKey) : String :=
  "Top driver: " ++ metricLabel (.sub k) ++ " "
    ++ (if 0 ≤ subDeltaQ a b k then "increased" else "decreased") ++ " ("
    ++ (if 0 ≤ subDeltaQ a b k then "+" ++ (JsNum.fin (subDeltaQ a b k)).toJsString
        else (JsNum.fin (subDeltaQ a b k)).toJsString)
    ++ ") versus the prior observation."

theorem isFinite_fin {n : JsNum} (h : n.isFinite = true) : n = .fin n.finVal := by
  cases n <;> simp [JsNum.isFinite, JsNum.finVal] at h ⊢

theorem driverDelta (x y : ℚ) :
    jsRound (jsMul (jsSub (.fin x) (.fin y)) (.fin 1)) = .fin ((⌊x - y + 1/2⌋ : ℤ) : ℚ) := by
  simp [jsSub, jsAdd, jsNeg, jsMul, jsRound, mul_one, ← sub_eq_add_neg]

theorem driverStep_none_eq (a b : ATXSnapshot) (k : SubscoreKey)
    (ha : (a.subscores.get k).isFinite = true) (hb : (b.subscores.get k).isFinite = true) :
    driverStep a b none k = some (k, .fin (subDeltaQ a b k)) := by
  show some (k, jsRound (jsMul (jsSub (a.subscores.get k) (b.subscores.get k)) (JsNum.fin 1)))
      = some (k, JsNum.fin (subDeltaQ a b k))
  rw [isFinite_fin ha, isFinite_fin hb, driverDelta]
  rfl

theorem driverStep_some_eq (a b : ATXSnapshot) (k k0 : SubscoreKey)
    (ha : (a.subscores.get k).isFinite = true) (hb : (b.subscores.get k).isFinite = true) :
    driverStep a b (some (k0, .fin (subDeltaQ a b k0))) k
      = if |subDeltaQ a b k| > |subDeltaQ a b k0| then some (k, .fin (subDeltaQ a b k))
        else some (k0, .fin (subDeltaQ a b k0)) := by
  show (if jsGt (jsAbs (jsRound (jsMul (jsSub (a.subscores.get k) (b.subscores.get k))
            (JsNum.fin 1)))) (jsAbs (JsNum.fin (subDeltaQ a b k0))) then
        some (k, jsRound (jsMul (jsSub (a.subscores.get k) (b.subscores.get k)) (JsNum.fin 1)))
      else some (k0, JsNum.fin (subDeltaQ a b k0)))
      = if |subDeltaQ a b k| > |subDeltaQ a b k0| then some (k, JsNum.fin (subDeltaQ a b k))
        else some (k0, JsNum.fin (subDeltaQ a b k0))
  rw [isFinite_fin ha, isFinite_fin hb, driverDelta]
  rw [show JsNum.fin ((⌊(a.subscores.get k).finVal - (b.subscores.get k).finVal + 1/2⌋ : ℤ) : ℚ)
      = JsNum.fin (subDeltaQ a b k) from rfl]
  rw [show ∀ u v : ℚ, (jsGt (jsAbs (JsNum.fin u)) (jsAbs (JsNum.fin v))) = decide (|v| < |u|)
      from fun u v => rfl]
  simp only [decide_eq_true_eq]

theorem driverFold_spec (a b : ATXSnapshot)
    (hfa : ∀ k, (a.subscores.get k).isFinite = true)
    (hfb : ∀ k, (b.subscores.get k).isFinite = true) :
    ∀ (ks : List SubscoreKey) (k0 : SubscoreKey),
      ∃ k1, (k1 = k0 ∨ k1 ∈ ks)
        ∧ ks.foldl (driverStep a b) (some (k0, .fin (subDeltaQ a b k0)))
            = some (k1, .fin (subDeltaQ a b k1))
        ∧ |subDeltaQ a b k0| ≤ |subDeltaQ a b k1|
        ∧ ∀ k ∈ ks, |subDeltaQ a b k| ≤ |subDeltaQ a b k1| := by
  intro ks
  induction ks with
  | nil =>
      intro k0
      exact ⟨k0, Or.inl rfl, rfl, le_refl _, by simp⟩
  | cons k tl ih =>
      intro k0
      rw [List.foldl_cons, driverStep_some_eq a b k k0 (hfa k) (hfb k)]
      by_cases hgt : |subDeltaQ a b k| > |subDeltaQ a b k0|
      · rw [if_pos hgt]
        obtain ⟨k1, hmem, hfold, hle, hall⟩ := ih k
        refine ⟨k1, ?_, hfold, le_trans (le_of_lt hgt) hle, ?_⟩
        · rcases hmem with h | h
          · exact Or.inr (h ▸ List.mem_cons_self k tl)
          · exact Or.inr (List.mem_cons_of_mem k h)
        · intro k2 hk2
          rcases List.mem_cons.mp hk2 with h | h
          · rw [h]; exact hle
          · exact hall k2 h
      · rw [if_neg hgt]
        obtain ⟨k1, hmem, hfold, hle, hall⟩ := ih k0
        refine ⟨k1, ?_, hfold, hle, ?_⟩
        · rcases hmem with h | h
          · exact Or.inl h
          · exact Or.inr (List.mem_cons_of_mem k h)
        · intro k2 hk2
          rcases List.mem_cons.mp hk2 with h | h
          · rw [h]; exact le_trans (not_lt.mp hgt) hle
          · exact hall k2 h

/-- C3 (amended): when the latest two trend points both carry snapshots
with finite subscores, the reported top driver maximises the absolute
ROUNDED delta `Math.round(latest - previous)` over the five subscores
(ties keep the earlier subscore in the fixed key order), and the reported
direction and signed magnitude are those of that rounded delta. -/
theorem topDriver_reports_max_rounded_delta (pts : List TrendPoint)
    (pa pb : TrendPoint) (a b : ATXSnapshot)
    (hl : latestPoint pts = some pa) (hp : previousPoint pts = some pb)
    (hga : getPointATX pa = some a) (hgb : getPointATX pb = some b)
    (hfa : allFiniteSubs a.subscores = true) (hfb : allFiniteSubs b.subscores = true) :
    ∃ k1, trendTopDriver pts
        = some { text := specDriverText a b k1, key := k1, delta := .fin (subDeltaQ a b k1) }
      ∧ ∀ k, |subDeltaQ a b k| ≤ |subDeltaQ a b k1| := by
  have hfa2 : ∀ k, (a.subscores.get k).isFinite = true := by
    simp only [allFiniteSubs, Bool.and_eq_true] at hfa
    obtain ⟨⟨⟨⟨h1, h2⟩, h3⟩, h4⟩, h5⟩ := hfa
    intro k
    cases k <;> assumption
  have hfb2 : ∀ k, (b.subscores.get k).isFinite = true := by
    simp only [allFiniteSubs, Bool.and_eq_true] at hfb
    obtain ⟨⟨⟨⟨h1, h2⟩, h3⟩, h4⟩, h5⟩ := hfb
    intro k
    cases k <;> assumption
  unfold trendTopDriver topDriver
  rw [hl, hp]
  rw [show (some pa).bind getPointATX = getPointATX pa from rfl,
    show (some pb).bind getPointATX = getPointATX pb from rfl, hga, hgb]
  dsimp only
  rw [show SUBSCORE_KEYS = SubscoreKey.discipline ::
      [SubscoreKey.riskIntegrity, SubscoreKey.executionStability,
       SubscoreKey.behaviouralVolatility, SubscoreKey.consistency] from rfl,
    List.foldl_cons, driverStep_none_eq a b _ (hfa2 _) (hfb2 _)]
  obtain ⟨k1, hmem, hfold, hle, hall⟩ :=
    driverFold_spec a b hfa2 hfb2
      [SubscoreKey.riskIntegrity, SubscoreKey.executionStability,
       SubscoreKey.behaviouralVolatility, SubscoreKey.consistency] SubscoreKey.discipline
  rw [hfold]
  refine ⟨k1, ?_, ?_⟩
  · dsimp only
    simp only [Option.some.injEq, TopDriver.mk.injEq, and_true, true_and]
    unfold specDriverText
    rw [show jsGe (JsNum.fin (subDeltaQ a b k1)) (.fin 0) = decide (0 ≤ subDeltaQ a b k1)
      from rfl]
    by_cases h0 : 0 ≤ subDeltaQ a b k1 <;> simp [h0]
  · intro k
    cases k with
    | discipline => exact hle
    | riskIntegrity => exact hall _ (by simp)
    | executionStability => exact hall _ (by simp)
    | behaviouralVolatility => exact hall _ (by simp)
    | consistency => exact hall _ (by simp)

def cexPrevSnap : ATXSnapshot :=
  { score := .fin 50,
    subscores := { discipline := .fin 50, riskIntegrity := .fin (105/2),
                   executionStability := .fin 50, behaviouralVolatility := .fin 50,
                   consistency := .fin 50 },
    profiles := some [], flags := [] }

def cexLatestSnap : ATXSnapshot :=
  { score := .fin 50,
    subscores := { discipline := .fin (262/5), riskIntegrity := .fin 50,
                   executionStability := .fin 50, behaviouralVolatility := .fin 50,
                   consistency := .fin 50 },
    profiles := some [], flags := [] }

def cexPrevPt : TrendPoint :=
  { startedAt := some (.fin 1), label := none, tradeCount := none, score := none,
    subscores := none, flags := none, profiles := none, atx := some cexPrevSnap }

def cexLatestPt : TrendPoint :=
  { startedAt := some (.fin 2), label := none, tradeCount := none, score := none,
    subscores := none, flags := none, profiles := none, atx := some cexLatestSnap }

def cexTrendPts : List TrendPoint := [cexPrevPt, cexLatestPt]

/-- C3 counterexample: with discipline moving by +2.4 and risk integrity
by −2.5 (all other subscores unchanged), the subscore with the largest
absolute delta between the latest two buckets is risk integrity, yet the
dashboard reports discipline, because it rounds each delta before
comparing absolute values (both round to magnitude 2 and the tie keeps
the earlier key). -/
theorem topDriver_cex :
    (trendTopDriver cexTrendPts).map (fun r => r.key) = some SubscoreKey.discipline
    ∧ |(cexLatestSnap.subscores.get .riskIntegrity).finVal
        - (cexPrevSnap.subscores.get .riskIntegrity).finVal|
      > |(cexLatestSnap.subscores.get .discipline).finVal
          - (cexPrevSnap.subscores.get .discipline).finVal| := by
  have h1 : subDeltaQ cexLatestSnap cexPrevSnap SubscoreKey.discipline = 2 := by
    show ((⌊(262/5 : ℚ) - 50 + 1/2⌋ : ℤ) : ℚ) = 2
    norm_num
  have h2 : subDeltaQ cexLatestSnap cexPrevSnap SubscoreKey.riskIntegrity = -2 := by
    show ((⌊(50 : ℚ) - 105/2 + 1/2⌋ : ℤ) : ℚ) = -2
    norm_num
  have h3 : subDeltaQ cexLatestSnap cexPrevSnap SubscoreKey.executionStability = 0 := by
    show ((⌊(50 : ℚ) - 50 + 1/2⌋ : ℤ) : ℚ) = 0
    norm_num
  have h4 : subDeltaQ cexLatestSnap cexPrevSnap SubscoreKey.behaviouralVolatility = 0 := by
    show ((⌊(50 : ℚ) - 50 + 1/2⌋ : ℤ) : ℚ) = 0
    norm_num
  have h5 : subDeltaQ cexLatestSnap cexPrevSnap SubscoreKey.consistency = 0 := by
    show ((⌊(50 : ℚ) - 50 + 1/2⌋ : ℤ) : ℚ) = 0
    norm_num
  constructor
  · unfold trendTopDriver
    rw [show latestPoint cexTrendPts = some cexLatestPt from rfl,
      show previousPoint cexTrendPts = some cexPrevPt from rfl]
    unfold topDriver
    rw [show (some cexLatestPt).bind getPointATX = some cexLatestSnap from rfl,
      show (some cexPrevPt).bind getPointATX = some cexPrevSnap from rfl]
    dsimp only
    rw [show SUBSCORE_KEYS = SubscoreKey.discipline ::
        [SubscoreKey.riskIntegrity, SubscoreKey.executionStability,
         SubscoreKey.behaviouralVolatility, SubscoreKey.consistency] from rfl]
    rw [List.foldl_cons, driverStep_none_eq _ _ _ (by decide) (by decide)]
    rw [List.foldl_cons, driverStep_some_eq _ _ _ _ (by decide) (by decide),
      if_neg (by rw [h2, h1]; norm_num)]
    rw [List.foldl_cons, driverStep_some_eq _ _ _ _ (by decide) (by decide),
      if_neg (by rw [h3, h1]; norm_num)]
    rw [List.foldl_cons, driverStep_some_eq _ _ _ _ (by decide) (by decide),
      if_neg (by rw [h4, h1]; norm_num)]
    rw [List.foldl_cons, driverStep_some_eq _ _ _ _ (by decide) (by decide),
      if_neg (by rw [h5, h1]; norm_num)]
    rfl
  · show |(50 : ℚ) - 105/2| > |(262/5 : ℚ) - 50|
    rw [show |(50 : ℚ) - 105/2| = 5/2 from by rw [abs_sub_comm]; rw [abs_of_nonneg] <;> norm_num,
      show |(262/5 : ℚ) - 50| = 12/5 from by rw [abs_of_nonneg] <;> norm_num]
    norm_num

def wDriverPrevSnap : ATXSnapshot :=
  { score := .fin 50,
    subscores := { discipline := .fin 50, riskIntegrity := .fin 50,
                   executionStability := .fin 50, behaviouralVolatility := .fin 50,
                   consistency := .fin 50 },
    profiles := some [], flags := [] }

def wDriverLatestSnap : ATXSnapshot :=
  { score := .fin 52,
    subscores := { discipline := .fin 53, riskIntegrity := .fin 48,
                   executionStability := .fin 50, behaviouralVolatility := .fin 50,
                   consistency := .fin 50 },
    profiles := some [], flags := [] }

def wDriverPrevPt : TrendPoint :=
  { startedAt := some (.fin 1), label := none, tradeCount := none, score := none,
    subscores := none, flags := none, profiles := none, atx := some wDriverPrevSnap }

def wDriverLatestPt : TrendPoint :=
  { startedAt := some (.fin 2), label := none, tradeCount := none, score := none,
    subscores := none, flags := none, profiles := none, atx := some wDriverLatestSnap }

/-- Witness for C3 (amended) at a concrete two-point trend. -/
theorem topDriver_reports_max_rounded_delta_witness :
    ∃ k1, trendTopDriver [wDriverPrevPt, wDriverLatestPt]
        = some { text := specDriverText wDriverLatestSnap wDriverPrevSnap k1, key := k1,
                 delta := .fin (subDeltaQ wDriverLatestSnap wDriverPrevSnap k1) }
      ∧ ∀ k, |subDeltaQ wDriverLatestSnap wDriverPrevSnap k|
          ≤ |subDeltaQ wDriverLatestSnap wDriverPrevSnap k1| :=
  topDriver_reports_max_rounded_delta [wDriverPrevPt, wDriverLatestPt]
    wDriverLatestPt wDriverPrevPt wDriverLatestSnap wDriverPrevSnap
    rfl rfl rfl rfl (by decide) (by decide)

/- ===== C1: epoch labels from trigger flags ===== -/

/- The documented flag vocabulary (§6 of the spec). -/
def flagVocab : List String :=
  ["INSUFFICIENT_DATA", "DISCIPLINE_LOW", "RISK_INTEGRITY_LOW", "BEHAVIOURAL_VOLATILITY_HIGH"]

theorem isInfixAppendCases {α : Type} (p l1 l2 : List α) (h : p <:+: l1 ++ l2) :
    p <:+: l1 ∨ p <:+: l2
      ∨ ∃ s t, p = s ++ t ∧ s ≠ [] ∧ t ≠ [] ∧ s <:+ l1 ∧ t <+: l2 := by
  obtain ⟨u, v, huv⟩ := h
  rcases List.append_eq_append_iff.mp huv with ⟨a2, ha1, _⟩ | ⟨c2, hc1, hc2⟩
  · exact Or.inl ⟨u, a2, ha1.symm⟩
  · rcases List.append_eq_append_iff.mp hc1 with ⟨a3, hb1, hb2⟩ | ⟨c3, hd1, hd2⟩
    · rcases eq_or_ne a3 [] with h3 | h3
      · subst h3
        refine Or.inr (Or.inl ?_)
        have hp : p <+: l2 := ⟨v, by rw [hb2, List.nil_append, hc2]⟩
        exact hp.isInfix
      · rcases eq_or_ne c2 [] with h4 | h4
        · subst h4
          refine Or.inl ?_
          have hs : a3 <:+ l1 := ⟨u, hb1.symm⟩
          rw [hb2, List.append_nil]
          exact hs.isInfix
        · exact Or.inr (Or.inr ⟨a3, c2, hb2, h3, h4, ⟨u, hb1.symm⟩, ⟨v, hc2.symm⟩⟩)
    · refine Or.inr (Or.inl ?_)
      exact ⟨c3, v, by rw [hc2, hd2]⟩

theorem isInfixConsElim {α : Type} (p : List α) (a : α) (l : List α)
    (hne : p ≠ []) (ha : a ∉ p) (h : p <:+: a :: l) : p <:+: l := by
  obtain ⟨u, v, huv⟩ := h
  cases u with
  | nil =>
      exfalso
      apply ha
      cases p with
      | nil => exact absurd rfl hne
      | cons x xs =>
          cases huv
          exact List.mem_cons_self _ _
  | cons x xs =>
      cases huv
      exact ⟨xs, v, rfl⟩

theorem containsSplitJoin (p : List Char) (hne : p ≠ []) (hc : (',' : Char) ∉ p)
    (hs : (' ' : Char) ∉ p) :
    ∀ flags : List String, p <:+: (joinFlags flags).data → ∃ f ∈ flags, p <:+: f.data := by
  intro flags
  induction flags with
  | nil =>
      intro h
      rw [show (joinFlags []).data = ([] : List Char) from rfl] at h
      exact absurd (List.infix_nil.mp h) hne
  | cons f rest ih =>
      cases rest with
      | nil =>
          intro h
          exact ⟨f, by simp, h⟩
      | cons g rest2 =>
          intro h
          rw [show joinFlags (f :: g :: rest2) = f ++ ", " ++ joinFlags (g :: rest2) from rfl,
            String.data_append, String.data_append,
            show (", ").data = [',', ' '] from rfl, List.append_assoc] at h
          rcases isInfixAppendCases p f.data ([',', ' '] ++ (joinFlags (g :: rest2)).data) h with
            h1 | h1 | ⟨s, t, hp, _, htne, _, hpre⟩
          · exact ⟨f, by simp, h1⟩
          · have h2 := isInfixConsElim p ',' _ hne hc h1
            have h3 := isInfixConsElim p ' ' _ hne hs h2
            obtain ⟨f2, hf2, hinf⟩ := ih h3
            exact ⟨f2, by simp [hf2], hinf⟩
          · exfalso
            obtain ⟨w, hw⟩ := hpre
            cases t with
            | nil => exact htne rfl
            | cons c t2 =>
                have hhead : c = ',' := by
                  have := congrArg (fun l => l.head?) hw
                  simpa using this
                apply hc
                rw [hp, hhead]
                exact List.mem_append_right s (List.mem_cons_self _ _)

theorem memJoinContains (f : String) :
    ∀ flags : List String, f ∈ flags → f.data <:+: (joinFlags flags).data := by
  intro flags
  induction flags with
  | nil => intro h; exact absurd h (List.not_mem_nil f)
  | cons g rest ih =>
      intro h
      rcases List.mem_cons.mp h with he | hm
      · subst he
        cases rest with
        | nil => exact List.infix_refl _
        | cons g2 r2 =>
            rw [show joinFlags (f :: g2 :: r2) = f ++ ", " ++ joinFlags (g2 :: r2) from rfl,
              String.data_append, String.data_append, List.append_assoc]
            exact (List.prefix_append f.data _).isInfix
      · cases rest with
        | nil => exact absurd hm (List.not_mem_nil f)
        | cons g2 r2 =>
            have hinf := ih hm
            rw [show joinFlags (g :: g2 :: r2) = g ++ ", " ++ joinFlags (g2 :: r2) from rfl,
              String.data_append, String.data_append,
              show (", ").data = [',', ' '] from rfl]
            exact hinf.trans (List.suffix_append _ _).isInfix

theorem containsJoinIffMem (pat : String) (flags : List String)
    (hvocab : ∀ f ∈ flags, f ∈ flagVocab)
    (hpat : pat = "DISCIPLINE_LOW" ∨ pat = "RISK_INTEGRITY_LOW"
      ∨ pat = "BEHAVIOURAL_VOLATILITY_HIGH") :
    (strContains (joinFlags flags) pat = true) ↔ pat ∈ flags := by
  constructor
  · intro h
    have hinf : pat.data <:+: (joinFlags flags).data := of_decide_eq_true h
    have hne : pat.data ≠ [] := by
      rcases hpat with h2 | h2 | h2 <;> subst h2 <;> decide
    have hcomma : (',' : Char) ∉ pat.data := by
      rcases hpat with h2 | h2 | h2 <;> subst h2 <;> decide
    have hspace : (' ' : Char) ∉ pat.data := by
      rcases hpat with h2 | h2 | h2 <;> subst h2 <;> decide
    obtain ⟨f, hf, hpf⟩ := containsSplitJoin pat.data hne hcomma hspace flags hinf
    have hfv := hvocab f hf
    have hfp : f = pat := by
      simp only [flagVocab, List.mem_cons, List.not_mem_nil, or_false] at hfv
      rcases hpat with h2 | h2 | h2 <;> subst h2 <;>
        rcases hfv with h3 | h3 | h3 | h3 <;> subst h3 <;>
          first
            | rfl
            | exact absurd hpf (by decide)
    rw [← hfp]
    exact hf
  · intro h
    exact decide_eq_true (memJoinContains pat flags h)

theorem joinFlagsNeEmpty (flags : List String) (hvocab : ∀ f ∈ flags, f ∈ flagVocab) :
    (joinFlags flags != "") = decide (flags ≠ []) := by
  cases flags with
  | nil => rfl
  | cons f rest =>
      have hf := hvocab f (by simp)
      have hfne : f ≠ "" := by
        simp only [flagVocab, List.mem_cons, List.not_mem_nil, or_false] at hf
        rcases hf with h | h | h | h <;> subst h <;> decide
      cases rest with
      | nil =>
          show (f != "") = decide ((f :: []) ≠ [])
          simp [bne_iff_ne, hfne]
      | cons g r2 =>
          have hr : decide ((f :: g :: r2) ≠ ([] : List String)) = true := by simp
          show (f ++ ", " ++ joinFlags (g :: r2) != "") = decide ((f :: g :: r2) ≠ [])
          rw [hr, bne_iff_ne]
          intro hcon
          have hdata : (f ++ ", " ++ joinFlags (g :: r2)).data = [] := by rw [hcon]
          rw [String.data_append, String.data_append,
            show (", ").data = [',', ' '] from rfl] at hdata
          simp at hdata

/-- C1 (amended): for an epoch event without an ended reason whose trigger
flags come from the documented flag vocabulary, the label is the combined
event when both the risk-integrity and the behavioural-volatility flag
are present, else the label of whichever single disruption flag is
present; a NONEMPTY flag list with none of the three disruption flags
yields the generic "Behavioural phase shift", while an EMPTY flag list
yields "Epoch shift" (not the generic phase-shift label the spec
claims). -/
theorem friendlyEpochLabel_amended (e : EpochEvent)
    (hr : e.endedReason = none ∨ e.endedReason = some "")
    (hv : ∀ f ∈ e.triggerFlags, f ∈ flagVocab) :
    friendlyEpochLabel e =
      if "RISK_INTEGRITY_LOW" ∈ e.triggerFlags ∧ "BEHAVIOURAL_VOLATILITY_HIGH" ∈ e.triggerFlags
      then "Risk integrity + behavioural volatility event"
      else if "RISK_INTEGRITY_LOW" ∈ e.triggerFlags then "Risk integrity disruption"
      else if "DISCIPLINE_LOW" ∈ e.triggerFlags then "Discipline disruption"
      else if "BEHAVIOURAL_VOLATILITY_HIGH" ∈ e.triggerFlags then "Behavioural volatility spike"
      else if e.triggerFlags ≠ [] then "Behavioural phase shift"
      else "Epoch shift" := by
  have cRI := containsJoinIffMem "RISK_INTEGRITY_LOW" e.triggerFlags hv (Or.inr (Or.inl rfl))
  have cDL := containsJoinIffMem "DISCIPLINE_LOW" e.triggerFlags hv (Or.inl rfl)
  have cBV := containsJoinIffMem "BEHAVIOURAL_VOLATILITY_HIGH" e.triggerFlags hv
    (Or.inr (Or.inr rfl))
  have bRI : strContains (joinFlags e.triggerFlags) "RISK_INTEGRITY_LOW"
      = decide ("RISK_INTEGRITY_LOW" ∈ e.triggerFlags) := by
    by_cases h : "RISK_INTEGRITY_LOW" ∈ e.triggerFlags
    · rw [cRI.mpr h, decide_eq_true h]
    · rw [decide_eq_false h]
      exact Bool.eq_false_iff.mpr fun hc => h (cRI.mp hc)
  have bDL : strContains (joinFlags e.triggerFlags) "DISCIPLINE_LOW"
      = decide ("DISCIPLINE_LOW" ∈ e.triggerFlags) := by
    by_cases h : "DISCIPLINE_LOW" ∈ e.triggerFlags
    · rw [cDL.mpr h, decide_eq_true h]
    · rw [decide_eq_false h]
      exact Bool.eq_false_iff.mpr fun hc => h (cDL.mp hc)
  have bBV : strContains (joinFlags e.triggerFlags) "BEHAVIOURAL_VOLATILITY_HIGH"
      = decide ("BEHAVIOURAL_VOLATILITY_HIGH" ∈ e.triggerFlags) := by
    by_cases h : "BEHAVIOURAL_VOLATILITY_HIGH" ∈ e.triggerFlags
    · rw [cBV.mpr h, decide_eq_true h]
    · rw [decide_eq_false h]
      exact Bool.eq_false_iff.mpr fun hc => h (cBV.mp hc)
  have bE := joinFlagsNeEmpty e.triggerFlags hv
  unfold friendlyEpochLabel
  rcases hr with hr | hr <;> rw [hr] <;>
    simp only [bne_self_eq_false, Bool.false_eq_true, if_false] <;>
    simp only [bRI, bDL, bBV, bE, Bool.and_eq_true, decide_eq_true_eq]

def cexEpochEmptyFlags : EpochEvent :=
  { epochId := 1, startedAt := .fin 0, endedAt := none, triggerFlags := [],
    endedReason := none, startedATX := none, endedATX := none, createdAt := .fin 0,
    provisional := none, state := none, confirmedAt := none }

/-- C1 counterexample: an epoch event with an empty trigger-flag list is
labelled "Epoch shift", not the generic "behavioural phase shift" the
spec prescribes for empty flags. -/
theorem friendlyEpochLabel_cex :
    friendlyEpochLabel cexEpochEmptyFlags = "Epoch shift"
    ∧ friendlyEpochLabel cexEpochEmptyFlags ≠ "Behavioural phase shift" := by
  constructor
  · decide
  · decide

def witnessEpochDL : EpochEvent :=
  { epochId := 2, startedAt := .fin 0, endedAt := none, triggerFlags := ["DISCIPLINE_LOW"],
    endedReason := none, startedATX := none, endedATX := none, createdAt := .fin 0,
    provisional := none, state := none, confirmedAt := none }

/-- Witness for C1 (amended): a discipline-only epoch event is labelled as
a discipline disruption. -/
theorem friendlyEpochLabel_amended_witness :
    friendlyEpochLabel witnessEpochDL = "Discipline disruption" := by
  have h := friendlyEpochLabel_amended witnessEpochDL (Or.inl rfl) (by decide)
  rw [h]
  decide
